import Mathlib

/-!
Verification of the Inkwell AI storefront (client `src/index.html` React app and
`src/server.js` Express backend) against its natural-language specification.

Monetary values are modelled as exact rationals (`ℚ`), matching the spec's
fixed-point reading of the source's decimal literals.  JavaScript string maps
(`PRICING_DATA`, the server price tables) become `String → Option ℚ` lookups;
the source's `?.field || 0` access pattern becomes `Option.getD · 0`.
Fallible collaborator calls (`fetch`) become explicit `Except Unit`
parameters: `.error` is a network failure / thrown exception, `.ok r` is a
settled HTTP response carrying `r.ok` (the `response.ok` flag) and the parsed
body fields the handler reads.
-/

namespace Inkwell

/-- The `formData` React state of `App` (src/index.html lines 94-98).
`coverImage` holds the selected file's name, `none` when no file was chosen. -/
structure FormData where
  bookTitle : String := ""
  recipientName : String := ""
  genre : String := ""
  coverImage : Option String := none
  promptText : String := ""
  bookSize : String := ""
  bookType : String := ""
  coverFinish : String := ""
  interiorPrint : String := ""
  paperType : String := ""
  pageRange : String := ""
  shipping : String := ""
  shippingName : String := ""
  shippingEmail : String := ""
deriving DecidableEq, Repr

/-- `PROFIT_MARGIN_PERCENTAGE` (src/index.html line 7). -/
def PROFIT_MARGIN_PERCENTAGE : ℚ := 50

/-- `PRICING_DATA.bookSize[·]?.basePrice` (src/index.html line 14). -/
def bookSizeBasePrice (s : String) : Option ℚ :=
  if s = "0600X0900" then some 3 else none

/-- `PRICING_DATA.bookType[·]?.priceModifier` (src/index.html line 15). -/
def bookTypePriceModifier (s : String) : Option ℚ :=
  if s = "PB" then some (3/2)
  else if s = "HC" then some (13/2)
  else if s = "EBOOK" then some 0
  else none

/-- `PRICING_DATA.coverFinish[·]?.priceModifier` (src/index.html line 16). -/
def coverFinishPriceModifier (s : String) : Option ℚ :=
  if s = "G" then some 0 else if s = "M" then some (3/2) else none

/-- `PRICING_DATA.interiorPrint[·]?.pricePerPage` (src/index.html line 17). -/
def interiorPrintPricePerPage (s : String) : Option ℚ :=
  if s = "BW" then some (1/50) else if s = "FC" then some (7/100) else none

/-- `PRICING_DATA.paperType[·]?.priceModifier` (src/index.html line 18). -/
def paperTypePriceModifier (s : String) : Option ℚ :=
  if s = "060CW" then some 0 else if s = "080CW" then some 2 else none

/-- `PRICING_DATA.shipping[·]?.price` (src/index.html line 19). -/
def shippingMethodPrice (s : String) : Option ℚ :=
  if s = "standard" then some (499/100)
  else if s = "express" then some (1099/100)
  else none

/-- Longest leading run of decimal digits. -/
def takeDigits : List Char → List Char
  | [] => []
  | c :: cs => if c.isDigit then c :: takeDigits cs else []

/-- Decimal value of a digit string. -/
def digitsToNat (l : List Char) : Nat :=
  l.foldl (fun acc c => acc * 10 + (c.toNat - 48)) 0

/-- JavaScript `parseInt(s)` with the default radix: skip leading whitespace,
an optional sign, then the longest digit prefix; `none` models `NaN`. -/
def parseIntJS (s : String) : Option Int :=
  let cs := s.data.dropWhile Char.isWhitespace
  match cs with
  | '-' :: rest =>
      let ds := takeDigits rest
      if ds = [] then none else some (-(digitsToNat ds : Int))
  | '+' :: rest =>
      let ds := takeDigits rest
      if ds = [] then none else some (digitsToNat ds)
  | _ =>
      let ds := takeDigits cs
      if ds = [] then none else some (digitsToNat ds)

/-- `const pageCount = parseInt(formData.pageRange) || 0` (src/index.html
line 189): `NaN` falls back to `0`; a parsed `0` is falsy and also yields `0`. -/
def pageCount (fd : FormData) : Int :=
  (parseIntJS fd.pageRange).getD 0

/-- The `baseCost` accumulation of the pricing effect (src/index.html
lines 188-195): size base price, book-type / cover-finish / paper-type
modifiers, plus pageCount times the per-page interior-print price; every
absent key contributes `0` via `?.field || 0`. -/
def baseCost (fd : FormData) : ℚ :=
  (bookSizeBasePrice fd.bookSize).getD 0
  + (bookTypePriceModifier fd.bookType).getD 0
  + (coverFinishPriceModifier fd.coverFinish).getD 0
  + (paperTypePriceModifier fd.paperType).getD 0
  + (pageCount fd : ℚ) * (interiorPrintPricePerPage fd.interiorPrint).getD 0

/-- `shippingPrice` of the pricing effect (src/index.html lines 197-198):
table price with `|| 0` fallback, forced to `0` when `bookType` is `EBOOK`. -/
def shippingCost (fd : FormData) : ℚ :=
  let p := (shippingMethodPrice fd.shipping).getD 0
  if fd.bookType = "EBOOK" then 0 else p

/-- The `cart` React state: `{ subtotal, shipping, total }`
(src/index.html line 102). -/
structure Cart where
  subtotal : ℚ
  shipping : ℚ
  total : ℚ
deriving DecidableEq, Repr

/-- The pricing `useEffect` (src/index.html lines 187-205): recomputes the
cart from `formData` on every mutation. -/
def computeCart (fd : FormData) : Cart :=
  let base := baseCost fd
  let ship := shippingCost fd
  let profit := base * (PROFIT_MARGIN_PERCENTAGE / 100)
  let subtotal := base + profit
  let total := subtotal + ship
  { subtotal := subtotal, shipping := ship, total := total }

/-- C1: for every `formData`, the recomputed cart satisfies
`total = subtotal + shippingCost` and `subtotal = baseCost × (1 + marginRate)`
with `marginRate = 50% = 1/2`, where `baseCost` is the sum of the size base
price, the book-type, cover-finish and paper-type modifiers, plus `pageCount`
times the per-page interior-print price.  The invariant holds after every
recomputation because `computeCart` is the recomputation. -/
theorem cart_invariant (fd : FormData) :
    (computeCart fd).total = (computeCart fd).subtotal + (computeCart fd).shipping
    ∧ (computeCart fd).subtotal = baseCost fd * (1 + 1/2)
    ∧ baseCost fd =
        (bookSizeBasePrice fd.bookSize).getD 0
        + (bookTypePriceModifier fd.bookType).getD 0
        + (coverFinishPriceModifier fd.coverFinish).getD 0
        + (paperTypePriceModifier fd.paperType).getD 0
        + (pageCount fd : ℚ) * (interiorPrintPricePerPage fd.interiorPrint).getD 0 := by
  refine ⟨rfl, ?_, rfl⟩
  show baseCost fd + baseCost fd * (PROFIT_MARGIN_PERCENTAGE / 100) = baseCost fd * (1 + 1/2)
  rw [PROFIT_MARGIN_PERCENTAGE]
  ring

/-- The concrete selection of the spec's pricing scenario. -/
def scenarioFormData : FormData :=
  { bookSize := "0600X0900", bookType := "PB", coverFinish := "G",
    paperType := "060CW", interiorPrint := "BW", pageRange := "100",
    shipping := "standard" }

lemma scenario_baseCost : baseCost scenarioFormData = 6.50 := by
  have hpc : pageCount scenarioFormData = 100 := by rfl
  rw [baseCost, hpc]
  norm_num [scenarioFormData, bookSizeBasePrice, bookTypePriceModifier,
    coverFinishPriceModifier, paperTypePriceModifier, interiorPrintPricePerPage]

lemma scenario_shippingCost : shippingCost scenarioFormData = 4.99 := by
  norm_num [shippingCost, scenarioFormData, shippingMethodPrice]
  decide

lemma scenario_subtotal : (computeCart scenarioFormData).subtotal = 9.75 := by
  show baseCost scenarioFormData
      + baseCost scenarioFormData * (PROFIT_MARGIN_PERCENTAGE / 100) = 9.75
  rw [scenario_baseCost, PROFIT_MARGIN_PERCENTAGE]; norm_num

lemma scenario_total : (computeCart scenarioFormData).total = 14.74 := by
  show baseCost scenarioFormData
      + baseCost scenarioFormData * (PROFIT_MARGIN_PERCENTAGE / 100)
      + shippingCost scenarioFormData = 14.74
  rw [scenario_baseCost, scenario_shippingCost, PROFIT_MARGIN_PERCENTAGE]
  norm_num

/-- C2: the scenario selection (size `0600X0900`, type `PB`, finish `G`,
paper `060CW`, interior `BW`, 100 pages, standard shipping, margin 50%)
prices to exactly `baseCost = 6.50`, `subtotal = 9.75`, `total = 14.74`. -/
theorem scenario_pricing :
    baseCost scenarioFormData = 6.50
    ∧ (computeCart scenarioFormData).subtotal = 9.75
    ∧ (computeCart scenarioFormData).total = 14.74 :=
  ⟨scenario_baseCost, scenario_subtotal, scenario_total⟩

lemma computeCart_congr (fd fd' : FormData)
    (hb : baseCost fd = baseCost fd')
    (hs : shippingCost fd = shippingCost fd') :
    computeCart fd = computeCart fd' := by
  unfold computeCart
  rw [hb, hs]

/-- A form whose option keys all miss the price table. -/
def unknownFormData : FormData :=
  { bookSize := "A5", bookType := "AUDIO", coverFinish := "S",
    paperType := "recycled", interiorPrint := "COLOR3",
    pageRange := "many", shipping := "teleport" }

/-- C3: the pricing recomputation is a total function of `formData` (nothing
can throw in the embedding), and degraded inputs contribute nothing: an
option key absent from `PRICING_DATA` contributes exactly `0` to the cart
(replacing it by the empty, unselected string changes nothing), an unknown
shipping method gives shipping cost `0`, and a `pageRange` that does not
parse as an integer contributes `0` pages. -/
theorem unknown_keys_contribute_zero (fd : FormData) :
    (bookSizeBasePrice fd.bookSize = none →
      computeCart fd = computeCart { fd with bookSize := "" })
    ∧ (bookTypePriceModifier fd.bookType = none →
      computeCart fd = computeCart { fd with bookType := "" })
    ∧ (coverFinishPriceModifier fd.coverFinish = none →
      computeCart fd = computeCart { fd with coverFinish := "" })
    ∧ (paperTypePriceModifier fd.paperType = none →
      computeCart fd = computeCart { fd with paperType := "" })
    ∧ (interiorPrintPricePerPage fd.interiorPrint = none →
      computeCart fd = computeCart { fd with interiorPrint := "" })
    ∧ (shippingMethodPrice fd.shipping = none → (computeCart fd).shipping = 0)
    ∧ (parseIntJS fd.pageRange = none → pageCount fd = 0) := by
  refine ⟨?_, ?_, ?_, ?_, ?_, ?_, ?_⟩
  · intro h
    refine computeCart_congr _ _ ?_ rfl
    unfold baseCost
    rw [h]
    rfl
  · intro h
    have hne : fd.bookType ≠ "EBOOK" := by
      intro he
      rw [he, show bookTypePriceModifier "EBOOK" = some 0 from rfl] at h
      exact Option.noConfusion h
    refine computeCart_congr _ _ ?_ ?_
    · unfold baseCost
      rw [h]
      rfl
    · unfold shippingCost
      rw [if_neg hne, if_neg (by decide : ¬("" : String) = "EBOOK")]
  · intro h
    refine computeCart_congr _ _ ?_ rfl
    unfold baseCost
    rw [h]
    rfl
  · intro h
    refine computeCart_congr _ _ ?_ rfl
    unfold baseCost
    rw [h]
    rfl
  · intro h
    refine computeCart_congr _ _ ?_ rfl
    unfold baseCost
    rw [h]
    rfl
  · intro h
    show shippingCost fd = 0
    unfold shippingCost
    rw [h]
    split <;> rfl
  · intro h
    unfold pageCount
    rw [h]
    rfl

/-- Witness for C3 at a concrete form with every key unknown. -/
theorem unknown_keys_contribute_zero_witness :
    computeCart unknownFormData = computeCart { unknownFormData with bookSize := "" }
    ∧ (computeCart unknownFormData).shipping = 0
    ∧ pageCount unknownFormData = 0 :=
  ⟨(unknown_keys_contribute_zero unknownFormData).1 rfl,
   (unknown_keys_contribute_zero unknownFormData).2.2.2.2.2.1 rfl,
   (unknown_keys_contribute_zero unknownFormData).2.2.2.2.2.2 rfl⟩

/-! ## Server: `src/server.js` -/

/-- Request body of `POST /api/create-payment-intent` as the handler reads it
(src/server.js line 106).  `bookType` and `shippingType` may be absent;
`totalAmount` is what the client actually sends (src/index.html line 150)
and is never read by the handler. -/
structure PaymentIntentBody where
  bookType : Option String := none
  shippingType : Option String := none
  totalAmount : Option Int := none
deriving DecidableEq, Repr

/-- `prices.book` (src/server.js line 109), in cents. -/
def bookPriceCents (s : String) : Option Int :=
  if s = "paperback" then some 2999
  else if s = "hardcover" then some 4299
  else none

/-- `prices.shipping` (src/server.js line 110), in cents. -/
def shippingPriceCents (s : String) : Option Int :=
  if s = "standard" then some 499
  else if s = "express" then some 1099
  else none

/-- `totalAmount = (prices.book[bookType] || 0) + (prices.shipping[shippingType] || 0)`
(src/server.js line 113); an absent body field indexes as `undefined` and
falls back to `0`. -/
def serverTotalAmount (b : PaymentIntentBody) : Int :=
  (b.bookType.bind bookPriceCents).getD 0
  + (b.shippingType.bind shippingPriceCents).getD 0

/-- A call made to the Stripe payment collaborator. -/
inductive StripeCall where
  | createPaymentIntent (amount : Int) (currency : String)
deriving DecidableEq, Repr

/-- HTTP outcome of `POST /api/create-payment-intent`. -/
inductive PIResult where
  | badRequest (msg : String)
  | okPI (clientSecret : String) (totalAmount : Int)
  | serverError (msg : String)
deriving DecidableEq, Repr

/-- `POST /api/create-payment-intent` (src/server.js lines 104-130): computes
the amount from the server-side price table, rejects a zero amount with
HTTP 400 before any collaborator call, otherwise calls
`stripe.paymentIntents.create` (whose answer is `stripeResp`; `.error` is a
thrown Stripe error, caught as HTTP 500).  Returns the HTTP result and the
list of collaborator calls issued. -/
def createPaymentIntentHandler (b : PaymentIntentBody)
    (stripeResp : Except Unit String) : PIResult × List StripeCall :=
  if serverTotalAmount b = 0 then
    (.badRequest "Invalid order options selected.", [])
  else
    match stripeResp with
    | .ok secret =>
        (.okPI secret (serverTotalAmount b),
         [.createPaymentIntent (serverTotalAmount b) "usd"])
    | .error _ =>
        (.serverError "Failed to create payment intent.",
         [.createPaymentIntent (serverTotalAmount b) "usd"])

lemma bookPart_cases (o : Option String) :
    (o.bind bookPriceCents).getD 0 = 0
    ∨ (o.bind bookPriceCents).getD 0 = 2999
    ∨ (o.bind bookPriceCents).getD 0 = 4299 := by
  cases o with
  | none => exact Or.inl rfl
  | some s =>
    show (bookPriceCents s).getD 0 = 0 ∨ (bookPriceCents s).getD 0 = 2999
      ∨ (bookPriceCents s).getD 0 = 4299
    unfold bookPriceCents
    split
    · exact Or.inr (Or.inl rfl)
    · split
      · exact Or.inr (Or.inr rfl)
      · exact Or.inl rfl

lemma shippingPart_cases (o : Option String) :
    (o.bind shippingPriceCents).getD 0 = 0
    ∨ (o.bind shippingPriceCents).getD 0 = 499
    ∨ (o.bind shippingPriceCents).getD 0 = 1099 := by
  cases o with
  | none => exact Or.inl rfl
  | some s =>
    show (shippingPriceCents s).getD 0 = 0 ∨ (shippingPriceCents s).getD 0 = 499
      ∨ (shippingPriceCents s).getD 0 = 1099
    unfold shippingPriceCents
    split
    · exact Or.inr (Or.inl rfl)
    · split
      · exact Or.inr (Or.inr rfl)
      · exact Or.inl rfl

lemma serverTotalAmount_zero_of_small (b : PaymentIntentBody)
    (h : serverTotalAmount b < 50) : serverTotalAmount b = 0 := by
  unfold serverTotalAmount at h ⊢
  rcases bookPart_cases b.bookType with h1 | h1 | h1 <;>
    rcases shippingPart_cases b.shippingType with h2 | h2 | h2 <;>
    rw [h1, h2] at h ⊢ <;> omega

/-- C5: for every request whose charged amount is strictly below the
50-minor-unit minimum charge threshold, the payment-session endpoint refuses
locally with an HTTP 400 error and issues no call to the payment
collaborator.  (Every priced option costs at least 499 cents, so the only
amount below 50 the handler can compute is 0, which it refuses before
contacting Stripe.) -/
theorem below_minimum_refused_locally (b : PaymentIntentBody)
    (resp : Except Unit String) (h : serverTotalAmount b < 50) :
    (createPaymentIntentHandler b resp).1
      = .badRequest "Invalid order options selected."
    ∧ (createPaymentIntentHandler b resp).2 = [] := by
  have hz := serverTotalAmount_zero_of_small b h
  unfold createPaymentIntentHandler
  rw [if_pos hz]
  exact ⟨rfl, rfl⟩

/-- Witness for C5 at the client's actual request shape: a body carrying only
`totalAmount = 40` computes to amount 0 < 50 and is refused with no Stripe
call. -/
theorem below_minimum_refused_locally_witness :
    serverTotalAmount { totalAmount := some 40 } < 50
    ∧ (createPaymentIntentHandler { totalAmount := some 40 } (.ok "sec")).1
        = .badRequest "Invalid order options selected."
    ∧ (createPaymentIntentHandler { totalAmount := some 40 } (.ok "sec")).2 = [] :=
  ⟨by decide,
   (below_minimum_refused_locally { totalAmount := some 40 } (.ok "sec") (by decide)).1,
   (below_minimum_refused_locally { totalAmount := some 40 } (.ok "sec") (by decide)).2⟩

/-- C10: the payment-session endpoint charges an amount computed solely from
the server-side price table applied to the body's `bookType` and
`shippingType` — the client-supplied `totalAmount` is ignored (replacing it
changes nothing) — every Stripe call it issues carries exactly that table
amount, and when both fields map to no table entry (amount 0) it answers
HTTP 400 without creating a payment intent. -/
theorem payment_amount_server_authoritative (b : PaymentIntentBody)
    (t₁ t₂ : Option Int) (resp : Except Unit String) :
    createPaymentIntentHandler { b with totalAmount := t₁ } resp
      = createPaymentIntentHandler { b with totalAmount := t₂ } resp
    ∧ (∀ c ∈ (createPaymentIntentHandler b resp).2,
        c = .createPaymentIntent (serverTotalAmount b) "usd")
    ∧ (serverTotalAmount b = 0 →
        (createPaymentIntentHandler b resp).1
          = .badRequest "Invalid order options selected."
        ∧ (createPaymentIntentHandler b resp).2 = []) := by
  refine ⟨rfl, ?_, ?_⟩
  · intro c hc
    unfold createPaymentIntentHandler at hc
    split at hc
    · simp at hc
    · rcases resp with _ | _ <;> simp at hc <;> exact hc
  · intro hz
    unfold createPaymentIntentHandler
    rw [if_pos hz]
    exact ⟨rfl, rfl⟩

/-- Witness for C10: the `totalAmount` field is ignored, and the empty body
(amount 0) is refused with no Stripe call. -/
theorem payment_amount_server_authoritative_witness :
    createPaymentIntentHandler
        { bookType := some "paperback", totalAmount := some 1 } (.ok "cs")
      = createPaymentIntentHandler
        { bookType := some "paperback", totalAmount := some 999999 } (.ok "cs")
    ∧ (createPaymentIntentHandler {} (.ok "cs")).1
        = .badRequest "Invalid order options selected."
    ∧ (createPaymentIntentHandler {} (.ok "cs")).2 = [] :=
  ⟨(payment_amount_server_authoritative { bookType := some "paperback" }
      (some 1) (some 999999) (.ok "cs")).1,
   ((payment_amount_server_authoritative {} none none (.ok "cs")).2.2 (by decide)).1,
   ((payment_amount_server_authoritative {} none none (.ok "cs")).2.2 (by decide)).2⟩

/-- Request body of `POST /api/create-draft` as the handler reads it
(src/server.js lines 56-57): scalar fields where the empty string stands for
a missing or empty (both falsy) value, and `coverImage` the multer-stored
file's name (`none` = no file uploaded). -/
structure DraftBody where
  title : String := ""
  genre : String := ""
  promptText : String := ""
  coverImage : Option String := none
deriving DecidableEq, Repr

/-- The story-generation collaborator's answer as the handler reads it:
`ok` is `response.ok`; `text` is
`data.candidates?.[0]?.content?.parts?.[0]?.text`, `none` when the chain
of fields is absent (src/server.js line 88). -/
structure GeminiResponse where
  ok : Bool
  text : Option String
deriving DecidableEq, Repr

/-- HTTP outcome of `POST /api/create-draft`. -/
inductive DraftResult where
  | badRequest (msg : String)
  | draftOk (story : String) (coverImageFilename : String)
  | serverError (msg : String)
deriving DecidableEq, Repr

/-- Whether a `DraftResult` is an HTTP success carrying a story. -/
def DraftResult.isSuccess : DraftResult → Bool
  | .draftOk _ _ => true
  | _ => false

/-- The fallback story substituted for a missing text
(src/server.js line 88). -/
def FALLBACK_STORY : String :=
  "Our AI storyteller is dreaming. Please try again in a moment."

/-- `if (!title || !genre || !promptText || !coverImageFile)`
(src/server.js line 59). -/
def requiredFieldMissing (b : DraftBody) : Bool :=
  b.title = "" || b.genre = "" || b.promptText = "" || b.coverImage = none

/-- `POST /api/create-draft` (src/server.js lines 54-96): validates the
required fields (HTTP 400), calls the story-generation collaborator, throws
on a non-ok response (caught as HTTP 500, like a network failure), and on an
ok response answers HTTP 200 with the body's story text — or, when the text
is absent, the fallback story. -/
def createDraftHandler (b : DraftBody) (resp : Except Unit GeminiResponse) :
    DraftResult :=
  if requiredFieldMissing b then
    .badRequest "A required field is missing. Please fill out the title, genre, prompt, and upload a cover image."
  else
    match resp with
    | .error _ => .serverError "Failed to create story draft."
    | .ok r =>
        if r.ok then .draftOk (r.text.getD FALLBACK_STORY) (b.coverImage.getD "")
        else .serverError "Failed to create story draft."

/-- A fully valid draft request body. -/
def draftBodyEx : DraftBody :=
  { title := "T", genre := "fantasy", promptText := "a tale",
    coverImage := some "coverImage-1.png" }

/-- C8 counterexample: a 2xx collaborator response whose body is missing the
story text is NOT treated as a failure — the handler substitutes the
fallback story and answers success, contradicting the claim that a response
missing the story text fails the draft-creation operation. -/
theorem missing_story_not_failure :
    (createDraftHandler draftBodyEx (.ok { ok := true, text := none })).isSuccess
      = true
    ∧ createDraftHandler draftBodyEx (.ok { ok := true, text := none })
        = .draftOk FALLBACK_STORY "coverImage-1.png" :=
  ⟨rfl, rfl⟩

/-- C8 amended: for a validated body, the draft operation succeeds exactly
when the collaborator response is 2xx (`response.ok`); a non-2xx response or
a network failure is treated as failure; a 2xx response missing the story
text still succeeds, carrying the fixed fallback story. -/
theorem draft_success_iff_response_ok (b : DraftBody)
    (resp : Except Unit GeminiResponse) (hv : requiredFieldMissing b = false) :
    ((createDraftHandler b resp).isSuccess = true
      ↔ ∃ r, resp = .ok r ∧ r.ok = true)
    ∧ (∀ r, resp = .ok r → r.ok = true → r.text = none →
        createDraftHandler b resp
          = .draftOk FALLBACK_STORY (b.coverImage.getD "")) := by
  constructor
  · constructor
    · intro hs
      cases resp with
      | error e => simp [createDraftHandler, hv, DraftResult.isSuccess] at hs
      | ok r =>
        cases hr : r.ok with
        | false => simp [createDraftHandler, hv, hr, DraftResult.isSuccess] at hs
        | true => exact ⟨r, rfl, hr⟩
    · rintro ⟨r, rfl, hok⟩
      simp [createDraftHandler, hv, hok, DraftResult.isSuccess]
  · rintro r rfl hok htext
    simp [createDraftHandler, hv, hok, htext]

/-- Witness for C8's amended claim: a network failure is a failure, and a
2xx response without text succeeds with the fallback story. -/
theorem draft_success_iff_response_ok_witness :
    ((createDraftHandler draftBodyEx (.error ())).isSuccess = true
      ↔ ∃ r, (.error () : Except Unit GeminiResponse) = .ok r ∧ r.ok = true)
    ∧ createDraftHandler draftBodyEx (.ok { ok := true, text := none })
        = .draftOk FALLBACK_STORY (draftBodyEx.coverImage.getD "") :=
  ⟨(draft_success_iff_response_ok draftBodyEx (.error ()) rfl).1,
   (draft_success_iff_response_ok draftBodyEx (.ok { ok := true, text := none })
      rfl).2 _ rfl rfl rfl⟩

/-! ## Client handlers: `src/index.html` -/

/-- Observable actions of the client order pipeline, in program order:
state-machine entries (`setUiState`), collaborator requests, stored results,
and user-facing `alert`s. -/
inductive Event where
  | storyRequest
  | setStory (text : String)
  | enterPreview
  | alertStoryFailed
  | enterFinalize
  | paymentIntentRequest (amountMinor : Int)
  | setClientSecret (secret : String)
  | alertPaymentInitFailed
  | confirmPaymentAttempt
  | paymentConfirmed
  | orderCreateRequest
  | enterConfirmation
  | alertOrderFailed
deriving DecidableEq, Repr

/-- JavaScript `Math.round` on exact rationals: round half away from zero is
round half up for the non-negative amounts at play; the source applies it to
`cart.total * 100`. -/
def jsRound (q : ℚ) : Int := ⌊q + 1/2⌋

/-- Answer of `POST /api/payment/create-payment-intent` as the client reads
it: `ok` is `response.ok`, `clientSecret` the parsed body field. -/
structure PaymentIntentResponse where
  ok : Bool
  clientSecret : String
deriving DecidableEq, Repr

/-- `handleFinalizeOrder` (src/index.html lines 143-159): sets the UI state
to `finalize` FIRST, then — only when `cart.total > 0` — POSTs
`Math.round(cart.total * 100)` to the payment-intent endpoint and stores the
returned `clientSecret` on success, alerting on a thrown fetch or non-ok
response.  Returns the emitted event trace and the `clientSecret` written
(`none` = not written). -/
def handleFinalizeOrder (cart : Cart)
    (resp : Except Unit PaymentIntentResponse) : List Event × Option String :=
  if 0 < cart.total then
    match resp with
    | .ok r =>
        if r.ok then
          ([.enterFinalize, .paymentIntentRequest (jsRound (cart.total * 100)),
            .setClientSecret r.clientSecret], some r.clientSecret)
        else
          ([.enterFinalize, .paymentIntentRequest (jsRound (cart.total * 100)),
            .alertPaymentInitFailed], none)
    | .error _ =>
        ([.enterFinalize, .paymentIntentRequest (jsRound (cart.total * 100)),
          .alertPaymentInitFailed], none)
  else ([.enterFinalize], none)

/-- A cart with a positive total, as displayed in the spec's scenario. -/
def cartEx : Cart := { subtotal := 9.75, shipping := 4.99, total := 14.74 }

/-- C4 counterexample: on the Preview → Finalize transition with
`total = 14.74 > 0` and a successful collaborator answer, the emitted trace
is `[enterFinalize, paymentIntentRequest, setClientSecret]`: the machine
enters the Finalize state as its very first action and the PaymentSession is
obtained only afterwards — the claim that the session is obtained BEFORE
entering Finalize is false. -/
theorem finalize_entered_before_session :
    (0 : ℚ) < cartEx.total
    ∧ (handleFinalizeOrder cartEx (.ok { ok := true, clientSecret := "cs" })).1
        = [.enterFinalize, .paymentIntentRequest 1474, .setClientSecret "cs"]
    ∧ (handleFinalizeOrder cartEx (.ok { ok := true, clientSecret := "cs" })).2
        = some "cs" := by
  have hpos : (0 : ℚ) < cartEx.total := by norm_num [cartEx]
  have hamt : jsRound (cartEx.total * 100) = 1474 := by
    have : cartEx.total * 100 = 1474 := by norm_num [cartEx]
    rw [jsRound, this]
    norm_num
  refine ⟨hpos, ?_, ?_⟩ <;>
    · unfold handleFinalizeOrder
      rw [if_pos hpos]
      simp [hamt]

/-- C4 amended: on the Preview → Finalize transition the machine enters the
Finalize state first, unconditionally; then, exactly when the computed total
is greater than 0, the Payment Adapter is invoked with the rounded
minor-unit amount and, on a successful response, the PaymentSession
clientSecret is stored (after entering Finalize); when the total is not
positive, no payment request is made and no payment session is created. -/
theorem finalize_then_payment_session (cart : Cart)
    (resp : Except Unit PaymentIntentResponse) :
    (handleFinalizeOrder cart resp).1.get? 0 = some .enterFinalize
    ∧ (0 < cart.total →
        (handleFinalizeOrder cart resp).1.get? 1
          = some (.paymentIntentRequest (jsRound (cart.total * 100))))
    ∧ (0 < cart.total → ∀ r, resp = .ok r → r.ok = true →
        (handleFinalizeOrder cart resp).2 = some r.clientSecret)
    ∧ (¬ 0 < cart.total →
        (handleFinalizeOrder cart resp).1 = [.enterFinalize]
        ∧ (handleFinalizeOrder cart resp).2 = none) := by
  unfold handleFinalizeOrder
  by_cases h : 0 < cart.total
  · rw [if_pos h]
    rcases resp with e | r
    · simp [h]
    · by_cases hr : r.ok = true
      · simp [hr, h]
      · simp only [Bool.not_eq_true] at hr
        simp [hr, h]
  · rw [if_neg h]
    simp [h]

/-- Witness for C4's amended claim at the scenario cart and a zero cart. -/
theorem finalize_then_payment_session_witness :
    (handleFinalizeOrder cartEx (.ok { ok := true, clientSecret := "cs" })).2
      = some "cs"
    ∧ (handleFinalizeOrder { subtotal := 0, shipping := 0, total := 0 }
        (.ok { ok := true, clientSecret := "cs" })).1 = [.enterFinalize] :=
  ⟨(finalize_then_payment_session cartEx
      (.ok { ok := true, clientSecret := "cs" })).2.2.1
      (by norm_num [cartEx]) _ rfl rfl,
   ((finalize_then_payment_session { subtotal := 0, shipping := 0, total := 0 }
      (.ok { ok := true, clientSecret := "cs" })).2.2.2
      (by norm_num)).1⟩

/-- Answer of `POST /api/order/create` as the client receives it: `ok` is
the HTTP `response.ok` flag. -/
structure OrderCreateResponse where
  ok : Bool
deriving DecidableEq, Repr

/-- `onPaymentSuccess` (src/index.html lines 161-185): POSTs the final order
and sets the UI state to `confirmation`.  Only a THROWN fetch (network
failure) reaches the catch that alerts
"Payment succeeded, but failed to create final order"; the order-recording
response's `ok` flag is never inspected.  Returns the new UI state and the
trace. -/
def onPaymentSuccess (ui : String) (resp : Except Unit OrderCreateResponse) :
    String × List Event :=
  match resp with
  | .ok _ => ("confirmation", [.orderCreateRequest, .enterConfirmation])
  | .error _ => (ui, [.orderCreateRequest, .alertOrderFailed])

/-- C6, evaluated at the failing input: when payment has succeeded and the
order-recording call settles with a NON-SUCCESS HTTP response, the code
ignores `response.ok`, surfaces no message and advances the UI state to
`confirmation` — diverging from the claim (and spec §4.5/§7), which require
a payment-succeeded/order-failed message with the state remaining
`finalize`.  The network-failure half of the claim does hold: a thrown
fetch keeps the state at `finalize` and raises the distinguishing alert. -/
theorem order_recording_failure_divergence :
    onPaymentSuccess "finalize" (.ok { ok := false })
      = ("confirmation", [.orderCreateRequest, .enterConfirmation])
    ∧ onPaymentSuccess "finalize" (.error ())
      = ("finalize", [.orderCreateRequest, .alertOrderFailed]) :=
  ⟨rfl, rfl⟩

/-- Answer of `POST /api/story/generate` as the client reads it. -/
structure StoryResponse where
  ok : Bool
  story : String
  error : String
deriving DecidableEq, Repr

/-- The per-session React state of `App` that the order pipeline reads and
writes (src/index.html lines 94-105). -/
structure SessionState where
  formData : FormData
  story : String
  uiState : String
  cart : Cart
  clientSecret : Option String
deriving DecidableEq, Repr

/-- `handleStoryGeneration` (src/index.html lines 118-141): POSTs the form
to the story endpoint; on an ok response stores the story and moves the UI
to `preview`; a thrown fetch or a non-ok response reaches the catch, which
only alerts — no state field is written. -/
def handleStoryGeneration (s : SessionState)
    (resp : Except Unit StoryResponse) : SessionState × List Event :=
  match resp with
  | .ok r =>
      if r.ok then
        ({ s with story := r.story, uiState := "preview" },
         [.storyRequest, .setStory r.story, .enterPreview])
      else (s, [.storyRequest, .alertStoryFailed])
  | .error _ => (s, [.storyRequest, .alertStoryFailed])

/-- C9: a failed Draft Submission Adapter call (thrown fetch or non-ok
response) leaves the entire session state — every `formData` field
included — unchanged, so a machine in the `form` state remains in `form`. -/
theorem failed_story_generation_frame (s : SessionState)
    (resp : Except Unit StoryResponse)
    (hfail : resp = .error () ∨ ∃ r, resp = .ok r ∧ r.ok = false) :
    (handleStoryGeneration s resp).1 = s
    ∧ (handleStoryGeneration s resp).1.formData = s.formData
    ∧ (s.uiState = "form" → (handleStoryGeneration s resp).1.uiState = "form") := by
  rcases hfail with rfl | ⟨r, rfl, hr⟩
  · exact ⟨rfl, rfl, fun h => h⟩
  · refine ⟨?_, ?_, ?_⟩ <;> simp [handleStoryGeneration, hr]

/-- The session state at mount (src/index.html lines 94-105). -/
def initialSession : SessionState :=
  { formData := {}, story := "", uiState := "form",
    cart := { subtotal := 0, shipping := 0, total := 0 }, clientSecret := none }

/-- Witness for C9 at the initial session and a network failure. -/
theorem failed_story_generation_frame_witness :
    (handleStoryGeneration initialSession (.error ())).1 = initialSession
    ∧ (handleStoryGeneration initialSession (.error ())).1.uiState = "form" :=
  ⟨(failed_story_generation_frame initialSession (.error ()) (Or.inl rfl)).1,
   (failed_story_generation_frame initialSession (.error ()) (Or.inl rfl)).2.2 rfl⟩

/-! ## The order state machine as a trace semantics -/

/-- A user edit to `formData` (`handleInputChange` / `handleOptionSelect`,
src/index.html lines 108-109); every edit re-triggers the pricing effect,
which recomputes the cart (src/index.html lines 187-205). -/
def applyInputChange (s : SessionState) (fd : FormData) :
    SessionState × List Event :=
  ({ s with formData := fd, cart := computeCart fd }, [])

/-- `handleFinalizeOrder` at the session level: the `finalize` state is
entered and `clientSecret` is written exactly when the payment call
returned one. -/
def applyFinalizeOrder (s : SessionState)
    (resp : Except Unit PaymentIntentResponse) : SessionState × List Event :=
  ({ s with uiState := "finalize",
            clientSecret :=
              match (handleFinalizeOrder s.cart resp).2 with
              | some c => some c
              | none => s.clientSecret },
   (handleFinalizeOrder s.cart resp).1)

/-- `CheckoutForm.handleSubmit` (src/index.html lines 57-78):
`stripe.confirmPayment` yields either an error (displayed in the form,
nothing else happens) or success, upon which `onPaymentSuccess` runs with
the order-recording collaborator's answer. -/
def applyCheckoutSubmit (s : SessionState) (confirmError : Option String)
    (orderResp : Except Unit OrderCreateResponse) :
    SessionState × List Event :=
  match confirmError with
  | some _ => (s, [.confirmPaymentAttempt])
  | none =>
      ({ s with uiState := (onPaymentSuccess s.uiState orderResp).1 },
       [.confirmPaymentAttempt, .paymentConfirmed]
         ++ (onPaymentSuccess s.uiState orderResp).2)

/-- The reachable sessions of the order state machine, with their event
traces.  Each transition is available only where its trigger is rendered:
story generation in the `form` state, finalize in `preview`, the checkout
form in `finalize` once a `clientSecret` exists
(src/index.html lines 230-264). -/
inductive Reachable : SessionState → List Event → Prop where
  | init : Reachable initialSession []
  | input (s : SessionState) (tr : List Event) (fd : FormData) :
      Reachable s tr →
      Reachable (applyInputChange s fd).1 (tr ++ (applyInputChange s fd).2)
  | storyGen (s : SessionState) (tr : List Event)
      (resp : Except Unit StoryResponse) :
      Reachable s tr → s.uiState = "form" →
      Reachable (handleStoryGeneration s resp).1
        (tr ++ (handleStoryGeneration s resp).2)
  | finalize (s : SessionState) (tr : List Event)
      (resp : Except Unit PaymentIntentResponse) :
      Reachable s tr → s.uiState = "preview" →
      Reachable (applyFinalizeOrder s resp).1
        (tr ++ (applyFinalizeOrder s resp).2)
  | checkout (s : SessionState) (tr : List Event)
      (confirmError : Option String)
      (orderResp : Except Unit OrderCreateResponse) (cs : String) :
      Reachable s tr → s.uiState = "finalize" → s.clientSecret = some cs →
      Reachable (applyCheckoutSubmit s confirmError orderResp).1
        (tr ++ (applyCheckoutSubmit s confirmError orderResp).2)

/-- Every order-creation request in a trace is preceded by a successful
payment confirmation. -/
@[reducible] def paymentBeforeOrder (tr : List Event) : Prop :=
  ∀ j : Nat, tr[j]? = some Event.orderCreateRequest →
    ∃ i : Nat, i < j ∧ tr[i]? = some Event.paymentConfirmed

lemma paymentBeforeOrder_append {tr es : List Event}
    (h1 : paymentBeforeOrder tr) (h2 : paymentBeforeOrder es) :
    paymentBeforeOrder (tr ++ es) := by
  intro j hj
  by_cases hlt : j < tr.length
  · rw [List.getElem?_append_left hlt] at hj
    obtain ⟨i, hi, hget⟩ := h1 j hj
    exact ⟨i, hi, by rw [List.getElem?_append_left (lt_trans hi hlt)]; exact hget⟩
  · push_neg at hlt
    rw [List.getElem?_append_right hlt] at hj
    obtain ⟨i, hi, hget⟩ := h2 _ hj
    refine ⟨tr.length + i, by omega, ?_⟩
    rw [List.getElem?_append_right (by omega),
      show tr.length + i - tr.length = i from by omega]
    exact hget

lemma paymentBeforeOrder_of_not_mem {es : List Event}
    (h : Event.orderCreateRequest ∉ es) : paymentBeforeOrder es :=
  fun _ hj => absurd (List.getElem?_mem hj) h

lemma storyGen_no_order (s : SessionState) (resp : Except Unit StoryResponse) :
    Event.orderCreateRequest ∉ (handleStoryGeneration s resp).2 := by
  unfold handleStoryGeneration
  rcases resp with e | r
  · simp
  · by_cases hr : r.ok = true
    · simp [hr]
    · simp only [Bool.not_eq_true] at hr
      simp [hr]

lemma finalizeOrder_no_order (cart : Cart)
    (resp : Except Unit PaymentIntentResponse) :
    Event.orderCreateRequest ∉ (handleFinalizeOrder cart resp).1 := by
  unfold handleFinalizeOrder
  by_cases h : 0 < cart.total
  · rw [if_pos h]
    rcases resp with e | r
    · simp
    · by_cases hr : r.ok = true
      · simp [hr]
      · simp only [Bool.not_eq_true] at hr
        simp [hr]
  · rw [if_neg h]
    simp

lemma checkout_chunk_ordered (s : SessionState) (confirmError : Option String)
    (orderResp : Except Unit OrderCreateResponse) :
    paymentBeforeOrder (applyCheckoutSubmit s confirmError orderResp).2 := by
  unfold applyCheckoutSubmit
  rcases confirmError with _ | msg
  · unfold onPaymentSuccess
    rcases orderResp with e | r <;>
    · intro j hj
      rcases j with _ | _ | _ | _ | n
      · simp at hj
      · simp at hj
      · exact ⟨1, by omega, rfl⟩
      · simp at hj
      · simp at hj
  · intro j hj
    rcases j with _ | n
    · simp at hj
    · simp at hj

lemma reachable_paymentBeforeOrder {s : SessionState} {tr : List Event}
    (h : Reachable s tr) : paymentBeforeOrder tr := by
  induction h with
  | init => intro j hj; simp at hj
  | input s tr fd _ ih =>
      exact paymentBeforeOrder_append ih
        (paymentBeforeOrder_of_not_mem (by simp [applyInputChange]))
  | storyGen s tr resp _ _ ih =>
      exact paymentBeforeOrder_append ih
        (paymentBeforeOrder_of_not_mem (storyGen_no_order s resp))
  | finalize s tr resp _ _ ih =>
      exact paymentBeforeOrder_append ih
        (paymentBeforeOrder_of_not_mem (finalizeOrder_no_order s.cart resp))
  | checkout s tr confirmError orderResp cs _ _ _ ih =>
      exact paymentBeforeOrder_append ih
        (checkout_chunk_ordered s confirmError orderResp)

/-- C7: in every reachable session whose computed cart total is positive,
the order-creation request is never issued before the Payment Adapter's
confirmation callback has reported success: every `orderCreateRequest` in
the trace has a strictly earlier `paymentConfirmed`. -/
theorem order_request_after_payment_success (s : SessionState)
    (tr : List Event) (h : Reachable s tr) (hpos : 0 < s.cart.total) :
    ∀ j : Nat, tr[j]? = some Event.orderCreateRequest →
      ∃ i : Nat, i < j ∧ tr[i]? = some Event.paymentConfirmed :=
  fun j hj => reachable_paymentBeforeOrder h j hj

/-- The minor-unit amount requested for the scenario cart. -/
def witnessAmount : Int := jsRound ((computeCart scenarioFormData).total * 100)

/-- First session state of the C7 witness run: the scenario form is filled. -/
def s1w : SessionState := (applyInputChange initialSession scenarioFormData).1

/-- Story collaborator answer of the witness run. -/
def respStoryW : Except Unit StoryResponse :=
  .ok { ok := true, story := "Once", error := "" }

/-- Second session state of the witness run: story generated. -/
def s2w : SessionState := (handleStoryGeneration s1w respStoryW).1

/-- Payment-intent collaborator answer of the witness run. -/
def respPIW : Except Unit PaymentIntentResponse :=
  .ok { ok := true, clientSecret := "cs" }

/-- Third session state of the witness run: order finalized. -/
def s3w : SessionState := (applyFinalizeOrder s2w respPIW).1

/-- Final session state of the witness run: payment confirmed, order sent. -/
def s4w : SessionState := (applyCheckoutSubmit s3w none (.ok { ok := true })).1

lemma scenario_total_pos : 0 < (computeCart scenarioFormData).total := by
  rw [scenario_total]; norm_num

lemma handleFinalizeOrder_scenario :
    handleFinalizeOrder (computeCart scenarioFormData) respPIW
      = ([.enterFinalize, .paymentIntentRequest witnessAmount,
          .setClientSecret "cs"], some "cs") := by
  unfold handleFinalizeOrder
  rw [if_pos scenario_total_pos]
  rfl

/-- Witness for C7: a full run — fill the scenario form (total 14.74 > 0),
generate the story, finalize, confirm payment, record the order — reaches a
trace whose `orderCreateRequest` (index 8) is preceded by `paymentConfirmed`. -/
theorem order_request_after_payment_success_witness :
    ∃ i : Nat, i < 8 ∧
      ([Event.storyRequest, Event.setStory "Once", Event.enterPreview,
        Event.enterFinalize, Event.paymentIntentRequest witnessAmount,
        Event.setClientSecret "cs", Event.confirmPaymentAttempt,
        Event.paymentConfirmed, Event.orderCreateRequest,
        Event.enterConfirmation] : List Event)[i]?
        = some Event.paymentConfirmed := by
  have hcs : s3w.clientSecret = some "cs" := by
    show (match (handleFinalizeOrder s2w.cart respPIW).2 with
          | some c => some c
          | none => s2w.clientSecret) = some "cs"
    have h2 : (handleFinalizeOrder s2w.cart respPIW).2 = some "cs" := by
      show (handleFinalizeOrder (computeCart scenarioFormData) respPIW).2
        = some "cs"
      rw [handleFinalizeOrder_scenario]
    rw [h2]
  have r4 : Reachable s4w
      (((([] ++ (applyInputChange initialSession scenarioFormData).2)
          ++ (handleStoryGeneration s1w respStoryW).2)
          ++ (applyFinalizeOrder s2w respPIW).2)
          ++ (applyCheckoutSubmit s3w none (.ok { ok := true })).2) :=
    Reachable.checkout s3w _ none (.ok { ok := true }) "cs"
      (Reachable.finalize s2w _ respPIW
        (Reachable.storyGen s1w _ respStoryW
          (Reachable.input initialSession [] scenarioFormData Reachable.init)
          rfl)
        rfl)
      rfl hcs
  have hpos : 0 < s4w.cart.total := by
    show 0 < (computeCart scenarioFormData).total
    exact scenario_total_pos
  have htr : ((([] ++ (applyInputChange initialSession scenarioFormData).2)
          ++ (handleStoryGeneration s1w respStoryW).2)
          ++ (applyFinalizeOrder s2w respPIW).2)
          ++ (applyCheckoutSubmit s3w none (.ok { ok := true })).2
      = [Event.storyRequest, Event.setStory "Once", Event.enterPreview,
         Event.enterFinalize, Event.paymentIntentRequest witnessAmount,
         Event.setClientSecret "cs", Event.confirmPaymentAttempt,
         Event.paymentConfirmed, Event.orderCreateRequest,
         Event.enterConfirmation] := by
    have h3 : (applyFinalizeOrder s2w respPIW).2
        = [Event.enterFinalize, Event.paymentIntentRequest witnessAmount,
           Event.setClientSecret "cs"] := by
      show (handleFinalizeOrder s2w.cart respPIW).1 = _
      show (handleFinalizeOrder (computeCart scenarioFormData) respPIW).1 = _
      rw [handleFinalizeOrder_scenario]
    rw [h3]
    rfl
  have main := order_request_after_payment_success s4w _ r4 hpos
  rw [htr] at main
  exact main 8 rfl

end Inkwell
